import Mathlib

/-!
Debug-drawer demo (`src/index.js`): frame loop and coordinate transforms.

A shallow embedding of `src/index.js`.

Numbers.  Every finite JavaScript number is a rational, so numbers are modelled
as `ℚ`.  In `step`, `draw` and the routines they call the operators `+ - * /`
are taken exact.  The camera matrices are computed once, at module load, by
`mat4.ortho`, `mat4.lookAt` and `mat4.mul` into `Float32Array`s; there the
arithmetic is the code's: every operation of `mat4.ortho`, `mat4.lookAt` and
`mat4.mulIEEE` rounds to the nearest double and every write into the array
rounds to the nearest float32 (`IEEE.double`, `IEEE.float32`, `Mat4.stored`).
Infinities and NaN are not modelled.  `Math.sin` and `Math.cos` are functions supplied by the
host and are parameters of the model (`Env`); `Math.hypot` is modelled by the
rational square root, which is exact on the squares the module evaluates it at.

Matrices.  A `mat4` of gl-matrix is an array of 16 numbers in column-major
order; `Mat4` has one field per array slot.  The gl-matrix routines write their
result into the array `out` passed as first argument; the embedding returns the
new contents of `out`.

Effects.  Calls into the rendering context, the physics world and the host are
recorded, in program order, in a trace of `Effect`s.
-/

namespace DebugDrawerDemo

/-! ## gl-matrix -/

/-- A `vec3`: the array slots `[0]`, `[1]`, `[2]`. -/
@[ext]
structure Vec3 where
  v0 : ℚ
  v1 : ℚ
  v2 : ℚ
deriving DecidableEq, Repr

/-- A `mat4`: the array slots `[0]` .. `[15]`, column-major. -/
@[ext]
structure Mat4 where
  m0 : ℚ
  m1 : ℚ
  m2 : ℚ
  m3 : ℚ
  m4 : ℚ
  m5 : ℚ
  m6 : ℚ
  m7 : ℚ
  m8 : ℚ
  m9 : ℚ
  m10 : ℚ
  m11 : ℚ
  m12 : ℚ
  m13 : ℚ
  m14 : ℚ
  m15 : ℚ
deriving DecidableEq, Repr

/-! ## Binary floating point -/

namespace IEEE

/-- The power `2 ^ k`, for an integer `k`. -/
def pow2 (k : ℤ) : ℚ :=
  if 0 ≤ k then ((2 ^ k.toNat : ℕ) : ℚ) else 1 / ((2 ^ (-k).toNat : ℕ) : ℚ)

/-- The number of times `n` can be halved before it drops below 2, with
`fuel` bounding the count: for `1 ≤ n ≤ fuel` this is `⌊log₂ n⌋`. -/
def bitLength : ℕ → ℕ → ℕ
  | 0, _ => 0
  | fuel + 1, n => if n < 2 then 0 else bitLength fuel (n / 2) + 1

/-- The binary exponent of a nonzero `q`: the `e` with `2 ^ e ≤ |q| < 2 ^ (e + 1)`. -/
def exponent (q : ℚ) : ℤ :=
  let k : ℤ := (bitLength q.num.natAbs q.num.natAbs : ℤ) - (bitLength q.den q.den : ℤ)
  if pow2 k ≤ |q| then k else k - 1

/-- The integer nearest to `q`, the even one of the two when `q` is halfway. -/
def roundHalfEven (q : ℚ) : ℤ :=
  let f := Rat.floor q
  let r := q - f
  if r < 1 / 2 then f else if 1 / 2 < r then f + 1 else if f % 2 = 0 then f else f + 1

/-- Rounding to the nearest number with a significand of `p` bits and least
exponent `emin` (subnormals included), ties to even.  Overflow is not
modelled. -/
def roundBinary (p : ℕ) (emin : ℤ) (q : ℚ) : ℚ :=
  if q = 0 then 0
  else
    let e := max (exponent q) emin
    let ulp := pow2 (e - (p - 1 : ℤ))
    roundHalfEven (q / ulp) * ulp

/-- The nearest double: what an arithmetic operation of JavaScript returns. -/
def double (q : ℚ) : ℚ := roundBinary 53 (-1022) q

/-- The nearest float32: what a write into a `Float32Array` stores. -/
def float32 (q : ℚ) : ℚ := roundBinary 24 (-126) q

/-- The JavaScript sum `a + b`. -/
def add (a b : ℚ) : ℚ := double (a + b)

/-- The JavaScript difference `a - b`. -/
def sub (a b : ℚ) : ℚ := double (a - b)

/-- The JavaScript product `a * b`. -/
def mul (a b : ℚ) : ℚ := double (a * b)

/-- The JavaScript quotient `a / b`, for `b` other than zero. -/
def div (a b : ℚ) : ℚ := double (a / b)

end IEEE

/-- The contents of a `Float32Array` after the sixteen numbers of `m` were
written into it. -/
def Mat4.stored (m : Mat4) : Mat4 :=
  { m0 := IEEE.float32 m.m0, m1 := IEEE.float32 m.m1
    m2 := IEEE.float32 m.m2, m3 := IEEE.float32 m.m3
    m4 := IEEE.float32 m.m4, m5 := IEEE.float32 m.m5
    m6 := IEEE.float32 m.m6, m7 := IEEE.float32 m.m7
    m8 := IEEE.float32 m.m8, m9 := IEEE.float32 m.m9
    m10 := IEEE.float32 m.m10, m11 := IEEE.float32 m.m11
    m12 := IEEE.float32 m.m12, m13 := IEEE.float32 m.m13
    m14 := IEEE.float32 m.m14, m15 := IEEE.float32 m.m15 }

/-- The constant `glMatrix.EPSILON`, the double written `0.000001`. -/
def EPSILON : ℚ := IEEE.double (1 / 1000000)

/-- The constant `Math.PI`: the double nearest to π, as a rational. -/
def Math.PI : ℚ := 884279719003555 / 281474976710656

/-- The builtin `Math.hypot(x, y, z)`: the square root of the sum of squares
(gl-matrix releases without `Math.hypot` spell it `Math.sqrt(x*x + y*y + z*z)`). -/
def Math.hypot (x y z : ℚ) : ℚ := Rat.sqrt (x * x + y * y + z * z)

namespace vec3

/-- The constructor `vec3.fromValues(x, y, z)`. -/
def fromValues (x y z : ℚ) : Vec3 := ⟨x, y, z⟩

end vec3

namespace mat4

/-- The constructor `mat4.create()`: a new identity matrix. -/
def create : Mat4 :=
  { m0 := 1, m1 := 0, m2 := 0, m3 := 0
    m4 := 0, m5 := 1, m6 := 0, m7 := 0
    m8 := 0, m9 := 0, m10 := 1, m11 := 0
    m12 := 0, m13 := 0, m14 := 0, m15 := 1 }

/-- The routine `mat4.identity(out)`. -/
def identity : Mat4 :=
  { m0 := 1, m1 := 0, m2 := 0, m3 := 0
    m4 := 0, m5 := 1, m6 := 0, m7 := 0
    m8 := 0, m9 := 0, m10 := 1, m11 := 0
    m12 := 0, m13 := 0, m14 := 0, m15 := 1 }

/-- The routine `mat4.ortho(out, left, right, bottom, top, near, far)`, `out`
being a `Float32Array`, in the arithmetic of the code. -/
def ortho (left right bottom top near far : ℚ) : Mat4 :=
  let lr := IEEE.div 1 (IEEE.sub left right)
  let bt := IEEE.div 1 (IEEE.sub bottom top)
  let nf := IEEE.div 1 (IEEE.sub near far)
  Mat4.stored
    { m0 := IEEE.mul (-2) lr, m1 := 0, m2 := 0, m3 := 0
      m4 := 0, m5 := IEEE.mul (-2) bt, m6 := 0, m7 := 0
      m8 := 0, m9 := 0, m10 := IEEE.mul 2 nf, m11 := 0
      m12 := IEEE.mul (IEEE.add left right) lr
      m13 := IEEE.mul (IEEE.add top bottom) bt
      m14 := IEEE.mul (IEEE.add far near) nf
      m15 := 1 }

/-- The routine `mat4.lookAt(out, eye, center, up)`, `out` being a
`Float32Array`, in the arithmetic of the code. -/
def lookAt (eye center up : Vec3) : Mat4 :=
  let eyex := eye.v0
  let eyey := eye.v1
  let eyez := eye.v2
  let upx := up.v0
  let upy := up.v1
  let upz := up.v2
  let centerx := center.v0
  let centery := center.v1
  let centerz := center.v2
  if |IEEE.sub eyex centerx| < EPSILON ∧ |IEEE.sub eyey centery| < EPSILON ∧
      |IEEE.sub eyez centerz| < EPSILON then
    Mat4.stored identity
  else
    let z0 := IEEE.sub eyex centerx
    let z1 := IEEE.sub eyey centery
    let z2 := IEEE.sub eyez centerz
    let len := IEEE.div 1 (IEEE.double (Math.hypot z0 z1 z2))
    let z0 := IEEE.mul z0 len
    let z1 := IEEE.mul z1 len
    let z2 := IEEE.mul z2 len
    let x0 := IEEE.sub (IEEE.mul upy z2) (IEEE.mul upz z1)
    let x1 := IEEE.sub (IEEE.mul upz z0) (IEEE.mul upx z2)
    let x2 := IEEE.sub (IEEE.mul upx z1) (IEEE.mul upy z0)
    let len := IEEE.double (Math.hypot x0 x1 x2)
    let x : Vec3 :=
      if len = 0 then ⟨0, 0, 0⟩
      else
        let len := IEEE.div 1 len
        ⟨IEEE.mul x0 len, IEEE.mul x1 len, IEEE.mul x2 len⟩
    let x0 := x.v0
    let x1 := x.v1
    let x2 := x.v2
    let y0 := IEEE.sub (IEEE.mul z1 x2) (IEEE.mul z2 x1)
    let y1 := IEEE.sub (IEEE.mul z2 x0) (IEEE.mul z0 x2)
    let y2 := IEEE.sub (IEEE.mul z0 x1) (IEEE.mul z1 x0)
    let len := IEEE.double (Math.hypot y0 y1 y2)
    let y : Vec3 :=
      if len = 0 then ⟨0, 0, 0⟩
      else
        let len := IEEE.div 1 len
        ⟨IEEE.mul y0 len, IEEE.mul y1 len, IEEE.mul y2 len⟩
    let y0 := y.v0
    let y1 := y.v1
    let y2 := y.v2
    Mat4.stored
      { m0 := x0, m1 := y0, m2 := z0, m3 := 0
        m4 := x1, m5 := y1, m6 := z1, m7 := 0
        m8 := x2, m9 := y2, m10 := z2, m11 := 0
        m12 := -IEEE.add (IEEE.add (IEEE.mul x0 eyex) (IEEE.mul x1 eyey)) (IEEE.mul x2 eyez)
        m13 := -IEEE.add (IEEE.add (IEEE.mul y0 eyex) (IEEE.mul y1 eyey)) (IEEE.mul y2 eyez)
        m14 := -IEEE.add (IEEE.add (IEEE.mul z0 eyex) (IEEE.mul z1 eyey)) (IEEE.mul z2 eyez)
        m15 := 1 }

/-- The routine `mat4.mul(out, a, b)` (alias of `mat4.multiply`). -/
def mul (a b : Mat4) : Mat4 :=
  { m0 := b.m0 * a.m0 + b.m1 * a.m4 + b.m2 * a.m8 + b.m3 * a.m12
    m1 := b.m0 * a.m1 + b.m1 * a.m5 + b.m2 * a.m9 + b.m3 * a.m13
    m2 := b.m0 * a.m2 + b.m1 * a.m6 + b.m2 * a.m10 + b.m3 * a.m14
    m3 := b.m0 * a.m3 + b.m1 * a.m7 + b.m2 * a.m11 + b.m3 * a.m15
    m4 := b.m4 * a.m0 + b.m5 * a.m4 + b.m6 * a.m8 + b.m7 * a.m12
    m5 := b.m4 * a.m1 + b.m5 * a.m5 + b.m6 * a.m9 + b.m7 * a.m13
    m6 := b.m4 * a.m2 + b.m5 * a.m6 + b.m6 * a.m10 + b.m7 * a.m14
    m7 := b.m4 * a.m3 + b.m5 * a.m7 + b.m6 * a.m11 + b.m7 * a.m15
    m8 := b.m8 * a.m0 + b.m9 * a.m4 + b.m10 * a.m8 + b.m11 * a.m12
    m9 := b.m8 * a.m1 + b.m9 * a.m5 + b.m10 * a.m9 + b.m11 * a.m13
    m10 := b.m8 * a.m2 + b.m9 * a.m6 + b.m10 * a.m10 + b.m11 * a.m14
    m11 := b.m8 * a.m3 + b.m9 * a.m7 + b.m10 * a.m11 + b.m11 * a.m15
    m12 := b.m12 * a.m0 + b.m13 * a.m4 + b.m14 * a.m8 + b.m15 * a.m12
    m13 := b.m12 * a.m1 + b.m13 * a.m5 + b.m14 * a.m9 + b.m15 * a.m13
    m14 := b.m12 * a.m2 + b.m13 * a.m6 + b.m14 * a.m10 + b.m15 * a.m14
    m15 := b.m12 * a.m3 + b.m13 * a.m7 + b.m14 * a.m11 + b.m15 * a.m15 }

/-- The routine `mat4.mul(out, a, b)` in the arithmetic of the code, `out`
being a `Float32Array`: each product and each sum rounds to the nearest
double, each write to the nearest float32. -/
def mulIEEE (a b : Mat4) : Mat4 :=
  Mat4.stored
    {
      m0 := IEEE.add (IEEE.add (IEEE.add (IEEE.mul b.m0 a.m0) (IEEE.mul b.m1 a.m4))
        (IEEE.mul b.m2 a.m8)) (IEEE.mul b.m3 a.m12)
      m1 := IEEE.add (IEEE.add (IEEE.add (IEEE.mul b.m0 a.m1) (IEEE.mul b.m1 a.m5))
        (IEEE.mul b.m2 a.m9)) (IEEE.mul b.m3 a.m13)
      m2 := IEEE.add (IEEE.add (IEEE.add (IEEE.mul b.m0 a.m2) (IEEE.mul b.m1 a.m6))
        (IEEE.mul b.m2 a.m10)) (IEEE.mul b.m3 a.m14)
      m3 := IEEE.add (IEEE.add (IEEE.add (IEEE.mul b.m0 a.m3) (IEEE.mul b.m1 a.m7))
        (IEEE.mul b.m2 a.m11)) (IEEE.mul b.m3 a.m15)
      m4 := IEEE.add (IEEE.add (IEEE.add (IEEE.mul b.m4 a.m0) (IEEE.mul b.m5 a.m4))
        (IEEE.mul b.m6 a.m8)) (IEEE.mul b.m7 a.m12)
      m5 := IEEE.add (IEEE.add (IEEE.add (IEEE.mul b.m4 a.m1) (IEEE.mul b.m5 a.m5))
        (IEEE.mul b.m6 a.m9)) (IEEE.mul b.m7 a.m13)
      m6 := IEEE.add (IEEE.add (IEEE.add (IEEE.mul b.m4 a.m2) (IEEE.mul b.m5 a.m6))
        (IEEE.mul b.m6 a.m10)) (IEEE.mul b.m7 a.m14)
      m7 := IEEE.add (IEEE.add (IEEE.add (IEEE.mul b.m4 a.m3) (IEEE.mul b.m5 a.m7))
        (IEEE.mul b.m6 a.m11)) (IEEE.mul b.m7 a.m15)
      m8 := IEEE.add (IEEE.add (IEEE.add (IEEE.mul b.m8 a.m0) (IEEE.mul b.m9 a.m4))
        (IEEE.mul b.m10 a.m8)) (IEEE.mul b.m11 a.m12)
      m9 := IEEE.add (IEEE.add (IEEE.add (IEEE.mul b.m8 a.m1) (IEEE.mul b.m9 a.m5))
        (IEEE.mul b.m10 a.m9)) (IEEE.mul b.m11 a.m13)
      m10 := IEEE.add (IEEE.add (IEEE.add (IEEE.mul b.m8 a.m2) (IEEE.mul b.m9 a.m6))
        (IEEE.mul b.m10 a.m10)) (IEEE.mul b.m11 a.m14)
      m11 := IEEE.add (IEEE.add (IEEE.add (IEEE.mul b.m8 a.m3) (IEEE.mul b.m9 a.m7))
        (IEEE.mul b.m10 a.m11)) (IEEE.mul b.m11 a.m15)
      m12 := IEEE.add (IEEE.add (IEEE.add (IEEE.mul b.m12 a.m0) (IEEE.mul b.m13 a.m4))
        (IEEE.mul b.m14 a.m8)) (IEEE.mul b.m15 a.m12)
      m13 := IEEE.add (IEEE.add (IEEE.add (IEEE.mul b.m12 a.m1) (IEEE.mul b.m13 a.m5))
        (IEEE.mul b.m14 a.m9)) (IEEE.mul b.m15 a.m13)
      m14 := IEEE.add (IEEE.add (IEEE.add (IEEE.mul b.m12 a.m2) (IEEE.mul b.m13 a.m6))
        (IEEE.mul b.m14 a.m10)) (IEEE.mul b.m15 a.m14)
      m15 := IEEE.add (IEEE.add (IEEE.add (IEEE.mul b.m12 a.m3) (IEEE.mul b.m13 a.m7))
        (IEEE.mul b.m14 a.m11)) (IEEE.mul b.m15 a.m15) }

/-- The routine `mat4.fromTranslation(out, v)`. -/
def fromTranslation (v : Vec3) : Mat4 :=
  { m0 := 1, m1 := 0, m2 := 0, m3 := 0
    m4 := 0, m5 := 1, m6 := 0, m7 := 0
    m8 := 0, m9 := 0, m10 := 1, m11 := 0
    m12 := v.v0, m13 := v.v1, m14 := v.v2, m15 := 1 }

/-- The routine `mat4.rotateZ(out, a, rad)`; `s` and `c` are `Math.sin(rad)` and
`Math.cos(rad)`.  Slots 8..15 of `out` are those of `a` (copied when `out` is
another array, untouched when `out` is `a`). -/
def rotateZ (a : Mat4) (s c : ℚ) : Mat4 :=
  let a00 := a.m0
  let a01 := a.m1
  let a02 := a.m2
  let a03 := a.m3
  let a10 := a.m4
  let a11 := a.m5
  let a12 := a.m6
  let a13 := a.m7
  { a with
    m0 := a00 * c + a10 * s
    m1 := a01 * c + a11 * s
    m2 := a02 * c + a12 * s
    m3 := a03 * c + a13 * s
    m4 := a10 * c - a00 * s
    m5 := a11 * c - a01 * s
    m6 := a12 * c - a02 * s
    m7 := a13 * c - a03 * s }

/-- The routine `mat4.scale(out, a, v)`. -/
def scale (a : Mat4) (v : Vec3) : Mat4 :=
  let x := v.v0
  let y := v.v1
  let z := v.v2
  { m0 := a.m0 * x, m1 := a.m1 * x, m2 := a.m2 * x, m3 := a.m3 * x
    m4 := a.m4 * y, m5 := a.m5 * y, m6 := a.m6 * y, m7 := a.m7 * y
    m8 := a.m8 * z, m9 := a.m9 * z, m10 := a.m10 * z, m11 := a.m11 * z
    m12 := a.m12, m13 := a.m13, m14 := a.m14, m15 := a.m15 }

end mat4

/-! ## Module-level constants of `index.js` -/

def pixelsPerMeter : ℚ := 30

def groundColor : Vec3 := vec3.fromValues (77 / 100) (37 / 100) (6 / 100)
def groundPosition : Vec3 := vec3.fromValues 100 15 0
def groundSize : Vec3 := vec3.fromValues 190 19 1

def boxColor : Vec3 := vec3.fromValues (1 / 10) (3 / 10) (9 / 10)
def boxPosition : Vec3 := vec3.fromValues 100 150 0
def boxStartAngle : ℚ := 40
def boxSize : Vec3 := vec3.fromValues 20 20 1

def projMatrix : Mat4 := mat4.ortho 0 200 0 200 1 (-1)

def viewMatrix : Mat4 := mat4.lookAt ⟨0, 0, 1⟩ ⟨0, 0, 0⟩ ⟨0, 1, 0⟩

def projViewMatrix : Mat4 := mat4.mulIEEE projMatrix viewMatrix

def maxTimeStepMs : ℚ := 1 / 60 * 1000

/-! ## Effects and state -/

/-- The rendering-context constants the module names. -/
inductive GLenum
  | COLOR_BUFFER_BIT
  | TRIANGLE_STRIP
  | ARRAY_BUFFER
  | STATIC_DRAW
  | FLOAT
deriving DecidableEq, Repr

/-- A uniform location, identified by the uniform it was looked up for. -/
structure UniformLocation where
  name : String
deriving DecidableEq, Repr

/-- Calls the module makes into the rendering context, the physics world and
the host, with their arguments. -/
inductive Effect
  | initWebGLContext (canvasId : String)
  | initBox2D
  | glClearColor (r g b a : ℚ)
  | glViewport (x y width height : ℚ)
  | createShaderProgram (path vert frag : String)
  | glGetUniformLocation (name : String)
  | glCreateBuffer
  | glBindBuffer (target : GLenum)
  | glBufferData (target : GLenum) (data : List ℚ) (usage : GLenum)
  | glGetAttribLocation (name : String)
  | glVertexAttribPointer (size : ℕ) (type : GLenum) (normalized : Bool) (stride offset : ℕ)
  | glEnableVertexAttribArray
  | newWorld
  | worldSetGravity (x y : ℚ)
  | newDebugDrawer (pixelsPerMeter : ℚ)
  | worldSetDebugDraw
  | worldCreateBody (x y angle : ℚ) (dynamic : Bool)
  | bodyCreateFixture (hx hy density : ℚ)
  | consoleLog
  | requestAnimationFrame (boundPrevMs : ℚ)
  | worldStep (dt : ℚ) (velocityIterations positionIterations : ℕ)
  | glClear (mask : GLenum)
  | glUniformMatrix4fv (location : UniformLocation) (transpose : Bool) (value : Mat4)
  | glUniform3fv (location : UniformLocation) (value : Vec3)
  | glDrawArrays (mode : GLenum) (first count : ℕ)
  | worldDebugDraw
deriving DecidableEq, Repr

/-- The collaborators the module calls and whose code is not the module's own:
the host's `Math.sin` and `Math.cos`, the physics world (`Step`, and the box
body's `GetPosition` and `GetAngle`) over its state `W`, and what the
callbacks of the debug drawer do to the two matrices stored on it
(`debugDrawer.projMatrix` and `debugDrawer.viewMatrix` are the module's own
`projMatrix` and `viewMatrix` arrays).  `world.DebugDraw()` reads the world and
does not change it. -/
structure Env (W : Type) where
  sin : ℚ → ℚ
  cos : ℚ → ℚ
  worldStep : W → ℚ → ℕ → ℕ → W
  boxGetPosition : W → ℚ × ℚ
  boxGetAngle : W → ℚ
  debugDrawer : W → Mat4 × Mat4 → Mat4 × Mat4

/-- The module-level objects `step` and `draw` read or write, once `init` has
assigned `world`, `boxBody` and the uniform locations. -/
structure Scene (W : Type) where
  world : W
  groundColor : Vec3
  groundPosition : Vec3
  groundSize : Vec3
  boxColor : Vec3
  boxPosition : Vec3
  boxSize : Vec3
  uColorLocation : UniformLocation
  uMvpMatrixLocation : UniformLocation
  projMatrix : Mat4
  viewMatrix : Mat4
  projViewMatrix : Mat4
  modelMatrix : Mat4
  mvpMatrix : Mat4

variable {W : Type}

/-- The function `step(deltaMs)`. -/
def step (env : Env W) (deltaMs : ℚ) (s : Scene W) : Scene W × List Effect :=
  let clampedDeltaMs := min deltaMs maxTimeStepMs
  ({ s with world := env.worldStep s.world (clampedDeltaMs / 1000) 3 2 },
   [Effect.worldStep (clampedDeltaMs / 1000) 3 2])

/-- The function `draw()`.  The arrays it writes (`modelMatrix`, `mvpMatrix`,
`boxPosition`) are threaded through as locals, one binding per statement, and
stored back into the state at the end. -/
def draw (env : Env W) (s : Scene W) : Scene W × List Effect :=
  let tr := [Effect.glClear GLenum.COLOR_BUFFER_BIT]
  -- Ground
  let modelMatrix := mat4.fromTranslation s.groundPosition
  let modelMatrix := mat4.scale modelMatrix s.groundSize
  let mvpMatrix := mat4.mul s.projViewMatrix modelMatrix
  let tr := tr ++ [Effect.glUniformMatrix4fv s.uMvpMatrixLocation false mvpMatrix]
  let tr := tr ++ [Effect.glUniform3fv s.uColorLocation s.groundColor]
  let tr := tr ++ [Effect.glDrawArrays GLenum.TRIANGLE_STRIP 0 4]
  -- Box
  let position := env.boxGetPosition s.world
  let boxPosition : Vec3 := { s.boxPosition with v0 := position.1 * pixelsPerMeter }
  let boxPosition : Vec3 := { boxPosition with v1 := position.2 * pixelsPerMeter }
  let modelMatrix := mat4.fromTranslation boxPosition
  let rad := env.boxGetAngle s.world
  let modelMatrix := mat4.rotateZ modelMatrix (env.sin rad) (env.cos rad)
  let modelMatrix := mat4.scale modelMatrix s.boxSize
  let mvpMatrix := mat4.mul s.projViewMatrix modelMatrix
  let tr := tr ++ [Effect.glUniformMatrix4fv s.uMvpMatrixLocation false mvpMatrix]
  let tr := tr ++ [Effect.glUniform3fv s.uColorLocation s.boxColor]
  let tr := tr ++ [Effect.glDrawArrays GLenum.TRIANGLE_STRIP 0 4]
  -- Draw colliders
  let stored := env.debugDrawer s.world (s.projMatrix, s.viewMatrix)
  let tr := tr ++ [Effect.worldDebugDraw]
  ({ s with
      boxPosition := boxPosition
      modelMatrix := modelMatrix
      mvpMatrix := mvpMatrix
      projMatrix := stored.1
      viewMatrix := stored.2 }, tr)

/-- One invocation of `animationLoop(prevMs)`, `nowMs` being the value
`window.performance.now()` returns in it.  The third component is the argument
bound into the callback handed to `window.requestAnimationFrame`. -/
def animationLoop (env : Env W) (prevMs nowMs : ℚ) (s : Scene W) :
    Scene W × List Effect × ℚ :=
  let tr := [Effect.requestAnimationFrame nowMs]
  let deltaMs := nowMs - prevMs
  let r := step env deltaMs s
  let tr := tr ++ r.2
  let r := draw env r.1
  let tr := tr ++ r.2
  (r.1, tr, nowMs)

/-- The host running the loop: the first invocation is made with `prevMs`, each
later one is the callback registered by the one before it; `clock` lists the
readings of `window.performance.now()`, one per invocation.  The result is the
final state and the trace of every invocation, in order. -/
def runFrames (env : Env W) : ℚ → List ℚ → Scene W → Scene W × List (List Effect)
  | _, [], s => (s, [])
  | prevMs, nowMs :: clock, s =>
    let r := animationLoop env prevMs nowMs s
    let rest := runFrames env r.2.2 clock r.1
    (rest.1, r.2.1 :: rest.2)

/-- The module-level objects at the moment `init` reaches the loop: the
constants as evaluated at module load, the uniform locations `init` looked up,
and the world `w` it built. -/
def Scene.initial (w : W) : Scene W :=
  { world := w
    groundColor := DebugDrawerDemo.groundColor
    groundPosition := DebugDrawerDemo.groundPosition
    groundSize := DebugDrawerDemo.groundSize
    boxColor := DebugDrawerDemo.boxColor
    boxPosition := DebugDrawerDemo.boxPosition
    boxSize := DebugDrawerDemo.boxSize
    uColorLocation := ⟨"uColor"⟩
    uMvpMatrixLocation := ⟨"uMvpMatrix"⟩
    projMatrix := DebugDrawerDemo.projMatrix
    viewMatrix := DebugDrawerDemo.viewMatrix
    projViewMatrix := DebugDrawerDemo.projViewMatrix
    modelMatrix := mat4.create
    mvpMatrix := mat4.create }

/-- A call of `step` or of `draw`. -/
inductive Op
  | step (deltaMs : ℚ)
  | draw
deriving DecidableEq, Repr

/-- The state after one call. -/
def Op.apply (env : Env W) : Op → Scene W → Scene W
  | Op.step deltaMs, s => (DebugDrawerDemo.step env deltaMs s).1
  | Op.draw, s => (DebugDrawerDemo.draw env s).1

/-- The state after a finite sequence of calls. -/
def run (env : Env W) (ops : List Op) (s : Scene W) : Scene W :=
  ops.foldl (fun s op => op.apply env s) s

/-- How a promise that `init` awaits settles. -/
inductive Awaited (α : Type)
  | fulfilled (value : α)
  | rejected
  | pending
deriving DecidableEq, Repr

/-- What `init` receives from its surroundings: the result of
`initWebGLContext("renderCanvas")`; how the promise of `initBox2D()` settles
and, when it is fulfilled, whether the imported binding `box2d` holds the
engine (`false`: it does not, and destructuring it throws); how the promise of
`createShaderProgram` settles; the canvas size; the world the engine holds
once the bodies are created; the two clock readings taken when the loop is
entered. -/
structure Host (W : Type) where
  initWebGLContext : Bool
  initBox2D : Awaited Bool
  createShaderProgram : Awaited Unit
  canvasWidth : ℚ
  canvasHeight : ℚ
  world : W
  t0 : ℚ
  t1 : ℚ

/-- What a call of `init` leaves behind: the trace, the scene if `world` was
assigned, and the bound argument of the callback pending with
`requestAnimationFrame`, if any. -/
structure InitResult (W : Type) where
  trace : List Effect
  scene : Option (Scene W)
  scheduled : Option ℚ

/-- The function `init()`.  An awaited promise that is rejected or never
settles ends the run of `init` at the `await`. -/
def init (env : Env W) (host : Host W) : InitResult W :=
  let tr := [Effect.initWebGLContext "renderCanvas"]
  if !host.initWebGLContext then ⟨tr, none, none⟩
  else
    let tr := tr ++ [Effect.initBox2D]
    match host.initBox2D with
    | Awaited.rejected => ⟨tr, none, none⟩
    | Awaited.pending => ⟨tr, none, none⟩
    | Awaited.fulfilled false => ⟨tr, none, none⟩
    | Awaited.fulfilled true =>
      let tr := tr ++ [Effect.glClearColor (2 / 10) (2 / 10) (2 / 10) 1]
      let tr := tr ++ [Effect.glViewport 0 0 host.canvasWidth host.canvasHeight]
      let tr := tr ++ [Effect.createShaderProgram "assets/shaders/" "default.vert" "default.frag"]
      match host.createShaderProgram with
      | Awaited.rejected => ⟨tr, none, none⟩
      | Awaited.pending => ⟨tr, none, none⟩
      | Awaited.fulfilled () =>
        let tr := tr ++ [Effect.glGetUniformLocation "uMvpMatrix"]
        let tr := tr ++ [Effect.glGetUniformLocation "uColor"]
        let vertPositions : List ℚ := [-1 / 2, -1 / 2, 1 / 2, -1 / 2, -1 / 2, 1 / 2, 1 / 2, 1 / 2]
        let tr := tr ++ [Effect.glCreateBuffer]
        let tr := tr ++ [Effect.glBindBuffer GLenum.ARRAY_BUFFER]
        let tr := tr ++ [Effect.glBufferData GLenum.ARRAY_BUFFER vertPositions GLenum.STATIC_DRAW]
        let tr := tr ++ [Effect.glGetAttribLocation "aPosition"]
        let tr := tr ++ [Effect.glVertexAttribPointer 2 GLenum.FLOAT false 0 0]
        let tr := tr ++ [Effect.glEnableVertexAttribArray]
        let tr := tr ++ [Effect.newWorld]
        let tr := tr ++ [Effect.worldSetGravity 0 (-3)]
        let tr := tr ++ [Effect.newDebugDrawer pixelsPerMeter]
        let tr := tr ++ [Effect.worldSetDebugDraw]
        -- Ground
        let tr := tr ++ [Effect.worldCreateBody (groundPosition.v0 / pixelsPerMeter)
          (groundPosition.v1 / pixelsPerMeter) 0 false]
        let tr := tr ++ [Effect.bodyCreateFixture (groundSize.v0 / 2 / pixelsPerMeter)
          (groundSize.v1 / 2 / pixelsPerMeter) 0]
        -- Box
        let tr := tr ++ [Effect.consoleLog]
        let tr := tr ++ [Effect.worldCreateBody (boxPosition.v0 / pixelsPerMeter)
          (boxPosition.v1 / pixelsPerMeter) (boxStartAngle * Math.PI / 180) true]
        let tr := tr ++ [Effect.bodyCreateFixture (boxSize.v0 / 2 / pixelsPerMeter)
          (boxSize.v1 / 2 / pixelsPerMeter) 1]
        let r := animationLoop env host.t0 host.t1 (Scene.initial host.world)
        ⟨tr ++ r.2.1, some r.1, some r.2.2⟩

/-! ## Reading the uploads off a trace; matrices as linear maps -/

/-- Whether an effect is a call of `world.Step`. -/
def Effect.isWorldStep : Effect → Bool
  | Effect.worldStep _ _ _ => true
  | _ => false

/-- The matrices uploaded to the uniform at `loc`, in order. -/
def mvpUploads (loc : UniformLocation) : List Effect → List Mat4
  | [] => []
  | Effect.glUniformMatrix4fv l _ m :: tr =>
    if l = loc then m :: mvpUploads loc tr else mvpUploads loc tr
  | _ :: tr => mvpUploads loc tr

/-- The matrix a column-major `mat4` array stands for: slot `4 * j + i` is the
entry in row `i`, column `j`. -/
def Mat4.toMatrix (m : Mat4) : Matrix (Fin 4) (Fin 4) ℚ :=
  !![m.m0, m.m4, m.m8, m.m12;
     m.m1, m.m5, m.m9, m.m13;
     m.m2, m.m6, m.m10, m.m14;
     m.m3, m.m7, m.m11, m.m15]

namespace Spec

/-- Translation by `(x, y, z)`, as the specification words it. -/
def translate (x y z : ℚ) : Matrix (Fin 4) (Fin 4) ℚ :=
  !![1, 0, 0, x;
     0, 1, 0, y;
     0, 0, 1, z;
     0, 0, 0, 1]

/-- Rotation about the Z axis by the angle `a`, with the host's sine and
cosine, as the specification words it. -/
def rotateZ (env : Env W) (a : ℚ) : Matrix (Fin 4) (Fin 4) ℚ :=
  !![env.cos a, -env.sin a, 0, 0;
     env.sin a, env.cos a, 0, 0;
     0, 0, 1, 0;
     0, 0, 0, 1]

/-- Scaling by `(x, y, z)`, as the specification words it. -/
def scale (x y z : ℚ) : Matrix (Fin 4) (Fin 4) ℚ :=
  !![x, 0, 0, 0;
     0, y, 0, 0;
     0, 0, z, 0;
     0, 0, 0, 1]

/-- Membership of the clip volume `[-1, 1]³`, for a point with clip
coordinates `v` (its fourth coordinate being `1`). -/
def inClipVolume (v : Fin 4 → ℚ) : Prop :=
  (-1 ≤ v 0 ∧ v 0 ≤ 1) ∧ (-1 ≤ v 1 ∧ v 1 ≤ 1) ∧ (-1 ≤ v 2 ∧ v 2 ≤ 1)

/-- The clock readings `t 1`, ..., `t n` of the first `n` frames. -/
def readings (t : ℕ → ℚ) (n : ℕ) : List ℚ :=
  (List.range n).map (fun i => t (i + 1))

/-- The world after `k` frames: one `Step` per frame, by the clamped delta of
consecutive readings. -/
def worldAfter (env : Env W) (t : ℕ → ℚ) (w : W) : ℕ → W
  | 0 => w
  | k + 1 =>
    env.worldStep (worldAfter env t w k) (min (t (k + 1) - t k) maxTimeStepMs / 1000) 3 2

end Spec

/-- Modelled from the spec: `debug-drawer.js`, whose callbacks
`world.DebugDraw()` invokes, is not among the sources.  Section 4.4: each
callback "composes an MVP matrix using the stored projection and view matrices"
and "mutates no persistent state; purely a per-call adapter".  The callbacks
therefore leave the two matrices stored on the drawer as they are. -/
def DebugDrawer.callbacks (_w : W) (stored : Mat4 × Mat4) : Mat4 × Mat4 := stored

/-- The collaborators `env`, the debug drawer being that of the specification. -/
def Env.withDebugDrawer (env : Env W) : Env W :=
  { env with debugDrawer := DebugDrawer.callbacks }

/-- The part of the state that `draw` reads besides the world and that
neither `step` nor `draw` writes. -/
def Scene.frozen (s : Scene W) :
    Vec3 × Vec3 × Vec3 × Vec3 × ℚ × Vec3 × UniformLocation × UniformLocation × Mat4 :=
  (s.groundColor, s.groundPosition, s.groundSize, s.boxColor, s.boxPosition.v2, s.boxSize,
    s.uColorLocation, s.uMvpMatrixLocation, s.projViewMatrix)

/-- The three camera matrices held in the state. -/
def Scene.camera (s : Scene W) : Mat4 × Mat4 × Mat4 :=
  (s.projMatrix, s.viewMatrix, s.projViewMatrix)

/-! ## A concrete instance -/

/-- A sample collaborator set over a world that is just the box body's
`(x, y, angle)`: sine and cosine by the half-angle rational parametrisation,
`Step` lets the box fall by `dt`, and the debug drawer leaves its stored
matrices alone. -/
def sampleEnv : Env (ℚ × ℚ × ℚ) :=
  { sin := fun a => 2 * (a / 2) / (1 + (a / 2) * (a / 2))
    cos := fun a => (1 - (a / 2) * (a / 2)) / (1 + (a / 2) * (a / 2))
    worldStep := fun w dt _ _ => (w.1, w.2.1 - dt, w.2.2)
    boxGetPosition := fun w => (w.1, w.2.1)
    boxGetAngle := fun w => w.2.2
    debugDrawer := fun _ stored => stored }

/-- A sample scene: the initial one, with the box at the origin, unrotated. -/
def sampleScene : Scene (ℚ × ℚ × ℚ) := Scene.initial (0, 0, 0)

/-- A sample clock: a frame every 500 ms. -/
def sampleClock : ℕ → ℚ := fun i => 500 * i

/-! ## Basic facts -/

theorem maxTimeStepMs_eq : maxTimeStepMs = 50 / 3 := by
  norm_num [maxTimeStepMs]

theorem step_trace (env : Env W) (deltaMs : ℚ) (s : Scene W) :
    (step env deltaMs s).2 = [Effect.worldStep (min deltaMs maxTimeStepMs / 1000) 3 2] := rfl

theorem step_world (env : Env W) (deltaMs : ℚ) (s : Scene W) :
    (step env deltaMs s).1 =
      { s with world := env.worldStep s.world (min deltaMs maxTimeStepMs / 1000) 3 2 } := rfl

theorem draw_trace (env : Env W) (s : Scene W) :
    (draw env s).2 =
      [ Effect.glClear GLenum.COLOR_BUFFER_BIT,
        Effect.glUniformMatrix4fv s.uMvpMatrixLocation false
          (mat4.mul s.projViewMatrix
            (mat4.scale (mat4.fromTranslation s.groundPosition) s.groundSize)),
        Effect.glUniform3fv s.uColorLocation s.groundColor,
        Effect.glDrawArrays GLenum.TRIANGLE_STRIP 0 4,
        Effect.glUniformMatrix4fv s.uMvpMatrixLocation false
          (mat4.mul s.projViewMatrix
            (mat4.scale
              (mat4.rotateZ
                (mat4.fromTranslation
                  ⟨(env.boxGetPosition s.world).1 * pixelsPerMeter,
                   (env.boxGetPosition s.world).2 * pixelsPerMeter, s.boxPosition.v2⟩)
                (env.sin (env.boxGetAngle s.world)) (env.cos (env.boxGetAngle s.world)))
              s.boxSize)),
        Effect.glUniform3fv s.uColorLocation s.boxColor,
        Effect.glDrawArrays GLenum.TRIANGLE_STRIP 0 4,
        Effect.worldDebugDraw ] := rfl

theorem float32_hundredth : IEEE.float32 (1 / 100) = 5368709 / 536870912 := by
  decide!

theorem projMatrix_eq :
    projMatrix =
      { m0 := 5368709 / 536870912, m1 := 0, m2 := 0, m3 := 0
        m4 := 0, m5 := 5368709 / 536870912, m6 := 0, m7 := 0
        m8 := 0, m9 := 0, m10 := 1, m11 := 0
        m12 := -1, m13 := -1, m14 := 0, m15 := 1 } := by
  decide!

theorem viewMatrix_eq :
    viewMatrix =
      { m0 := 1, m1 := 0, m2 := 0, m3 := 0
        m4 := 0, m5 := 1, m6 := 0, m7 := 0
        m8 := 0, m9 := 0, m10 := 1, m11 := 0
        m12 := 0, m13 := 0, m14 := -1, m15 := 1 } := by
  decide!

theorem projViewMatrix_eq :
    projViewMatrix =
      { m0 := 5368709 / 536870912, m1 := 0, m2 := 0, m3 := 0
        m4 := 0, m5 := 5368709 / 536870912, m6 := 0, m7 := 0
        m8 := 0, m9 := 0, m10 := 1, m11 := 0
        m12 := -1, m13 := -1, m14 := -1, m15 := 1 } := by
  decide!

theorem projViewMatrix_mulVec (x y : ℚ) :
    projViewMatrix.toMatrix.mulVec ![x, y, 0, 1] =
      ![5368709 / 536870912 * x - 1, 5368709 / 536870912 * y - 1, -1, 1] := by
  rw [projViewMatrix_eq]
  ext i
  fin_cases i <;>
    simp [Mat4.toMatrix, Matrix.mulVec, Matrix.dotProduct, Fin.sum_univ_four] <;> ring

theorem frozen_step (env : Env W) (d : ℚ) (s : Scene W) :
    (step env d s).1.frozen = s.frozen := rfl

theorem frozen_draw (env : Env W) (s : Scene W) :
    (draw env s).1.frozen = s.frozen := rfl

theorem frozen_apply (env : Env W) (op : Op) (s : Scene W) :
    (op.apply env s).frozen = s.frozen := by
  cases op
  · exact frozen_step env _ s
  · exact frozen_draw env s

theorem frozen_run (env : Env W) (ops : List Op) (s : Scene W) :
    (run env ops s).frozen = s.frozen := by
  induction ops generalizing s with
  | nil => rfl
  | cons op ops ih =>
    show (run env ops (op.apply env s)).frozen = s.frozen
    rw [ih, frozen_apply]

theorem projViewMatrix_frozen (env : Env W) (ops : List Op) (s : Scene W) :
    (run env ops s).projViewMatrix = s.projViewMatrix := by
  have hf := frozen_run env ops s
  simp only [Scene.frozen, Prod.mk.injEq] at hf
  exact hf.2.2.2.2.2.2.2.2

theorem draw_trace_congr (env : Env W) (s s' : Scene W)
    (hf : s.frozen = s'.frozen) (hw : s.world = s'.world) :
    (draw env s).2 = (draw env s').2 := by
  simp only [Scene.frozen, Prod.mk.injEq] at hf
  obtain ⟨h1, h2, h3, h4, h5, h6, h7, h8, h9⟩ := hf
  rw [draw_trace, draw_trace, h1, h2, h3, h4, h5, h6, h7, h8, h9, hw]

theorem toMatrix_mul (a b : Mat4) : (mat4.mul a b).toMatrix = a.toMatrix * b.toMatrix := by
  ext i j
  fin_cases i <;> fin_cases j <;>
    simp [Mat4.toMatrix, mat4.mul, Matrix.mul_apply, Fin.sum_univ_four] <;> ring

theorem toMatrix_injective (a b : Mat4) (h : a.toMatrix = b.toMatrix) : a = b := by
  have e := fun i j => congrFun (congrFun h i) j
  have e00 := e 0 0
  have e01 := e 0 1
  have e02 := e 0 2
  have e03 := e 0 3
  have e10 := e 1 0
  have e11 := e 1 1
  have e12 := e 1 2
  have e13 := e 1 3
  have e20 := e 2 0
  have e21 := e 2 1
  have e22 := e 2 2
  have e23 := e 2 3
  have e30 := e 3 0
  have e31 := e 3 1
  have e32 := e 3 2
  have e33 := e 3 3
  simp [Mat4.toMatrix] at e00 e01 e02 e03 e10 e11 e12 e13 e20 e21 e22 e23 e30 e31 e32 e33
  ext <;> assumption

theorem camera_step (env : Env W) (d : ℚ) (s : Scene W) :
    (step env d s).1.camera = s.camera := rfl

theorem camera_draw (env : Env W)
    (hdd : ∀ w stored, env.debugDrawer w stored = stored) (s : Scene W) :
    (draw env s).1.camera = s.camera := by
  simp [draw, Scene.camera, hdd]

theorem camera_run (env : Env W)
    (hdd : ∀ w stored, env.debugDrawer w stored = stored) (ops : List Op) (s : Scene W) :
    (run env ops s).camera = s.camera := by
  induction ops generalizing s with
  | nil => rfl
  | cons op ops ih =>
    show (run env ops (op.apply env s)).camera = s.camera
    rw [ih]
    cases op
    · exact camera_step env _ s
    · exact camera_draw env hdd s

theorem readings_succ (t : ℕ → ℚ) (n : ℕ) :
    Spec.readings t (n + 1) = t 1 :: Spec.readings (fun i => t (i + 1)) n := by
  simp [Spec.readings, List.range_succ_eq_map, List.map_map, Function.comp_def]

theorem worldAfter_succ (env : Env W) (t : ℕ → ℚ) (w : W) (k : ℕ) :
    Spec.worldAfter env t w (k + 1) =
      Spec.worldAfter env (fun i => t (i + 1))
        (env.worldStep w (min (t 1 - t 0) maxTimeStepMs / 1000) 3 2) k := by
  induction k with
  | zero => rfl
  | succ k ih =>
    show env.worldStep (Spec.worldAfter env t w (k + 1)) _ 3 2 = _
    rw [ih]
    rfl

theorem animationLoop_trace (env : Env W) (prevMs nowMs : ℚ) (s : Scene W) :
    (animationLoop env prevMs nowMs s).2.1 =
      Effect.requestAnimationFrame nowMs ::
        Effect.worldStep (min (nowMs - prevMs) maxTimeStepMs / 1000) 3 2 ::
          (draw env
            { s with
              world := env.worldStep s.world (min (nowMs - prevMs) maxTimeStepMs / 1000) 3 2 }).2 :=
  rfl

theorem animationLoop_world (env : Env W) (prevMs nowMs : ℚ) (s : Scene W) :
    (animationLoop env prevMs nowMs s).1.world =
      env.worldStep s.world (min (nowMs - prevMs) maxTimeStepMs / 1000) 3 2 := rfl

theorem animationLoop_frozen (env : Env W) (prevMs nowMs : ℚ) (s : Scene W) :
    (animationLoop env prevMs nowMs s).1.frozen = s.frozen := rfl

theorem animationLoop_scheduled (env : Env W) (prevMs nowMs : ℚ) (s : Scene W) :
    (animationLoop env prevMs nowMs s).2.2 = nowMs := rfl

theorem runFrames_cons (env : Env W) (prevMs nowMs : ℚ) (clock : List ℚ) (s : Scene W) :
    (runFrames env prevMs (nowMs :: clock) s).2 =
      (animationLoop env prevMs nowMs s).2.1 ::
        (runFrames env nowMs clock (animationLoop env prevMs nowMs s).1).2 := rfl

theorem runFrames_length (env : Env W) (prevMs : ℚ) (clock : List ℚ) (s : Scene W) :
    (runFrames env prevMs clock s).2.length = clock.length := by
  induction clock generalizing prevMs s with
  | nil => rfl
  | cons nowMs clock ih => rw [runFrames_cons, List.length_cons, ih, List.length_cons]

theorem runFrames_frame (env : Env W) (n : ℕ) :
    ∀ (t : ℕ → ℚ) (s : Scene W) (i : ℕ), i < n →
      (runFrames env (t 0) (Spec.readings t n) s).2[i]? =
        some (Effect.requestAnimationFrame (t (i + 1)) ::
          Effect.worldStep (min (t (i + 1) - t i) maxTimeStepMs / 1000) 3 2 ::
            (draw env { s with world := Spec.worldAfter env t s.world (i + 1) }).2) := by
  induction n with
  | zero => intro t s i h; omega
  | succ n ih =>
    intro t s i h
    rw [readings_succ, runFrames_cons]
    cases i with
    | zero =>
      rw [List.getElem?_cons_zero, animationLoop_trace]
      rfl
    | succ i =>
      rw [List.getElem?_cons_succ]
      have h' : i < n := by omega
      have := ih (fun i => t (i + 1)) (animationLoop env (t 0) (t 1) s).1 i h'
      simp only at this
      rw [this, animationLoop_world, ← worldAfter_succ]
      rfl

theorem toMatrix_fromTranslation (v : Vec3) :
    (mat4.fromTranslation v).toMatrix = Spec.translate v.v0 v.v1 v.v2 := rfl

theorem toMatrix_rotateZ (env : Env W) (m : Mat4) (a : ℚ) :
    (mat4.rotateZ m (env.sin a) (env.cos a)).toMatrix = m.toMatrix * Spec.rotateZ env a := by
  ext i j
  fin_cases i <;> fin_cases j <;>
    simp [Mat4.toMatrix, mat4.rotateZ, Spec.rotateZ, Matrix.mul_apply, Fin.sum_univ_four,
      Matrix.vecHead, Matrix.vecTail] <;>
    ring

theorem toMatrix_scale (m : Mat4) (v : Vec3) :
    (mat4.scale m v).toMatrix = m.toMatrix * Spec.scale v.v0 v.v1 v.v2 := by
  ext i j
  fin_cases i <;> fin_cases j <;>
    simp [Mat4.toMatrix, mat4.scale, Spec.scale, Matrix.mul_apply, Fin.sum_univ_four,
      Matrix.vecHead, Matrix.vecTail]

theorem init_success (env : Env W) (host : Host W)
    (hc : host.initWebGLContext = true) (hb : host.initBox2D = Awaited.fulfilled true)
    (hs : host.createShaderProgram = Awaited.fulfilled ()) :
    (init env host).scheduled = some host.t1 ∧
    ((init env host).scene.map fun s => s.world) =
      some (env.worldStep host.world (min (host.t1 - host.t0) maxTimeStepMs / 1000) 3 2) ∧
    Effect.newWorld ∈ (init env host).trace := by
  unfold init
  rw [hc, hb, hs]
  refine ⟨rfl, rfl, ?_⟩
  simp

/-! ## The claims -/

/-- C1: for every delta `d` with `d ≥ maxTimeStepMs`, `step(d)` makes exactly
one call `world.Step(maxTimeStepMs / 1000, 3, 2)`, whatever `d` is, and
`maxTimeStepMs / 1000` is `1 / 60`. -/
theorem step_clamps (env : Env W) (d : ℚ) (s : Scene W) (h : maxTimeStepMs ≤ d) :
    (step env d s).2 = [Effect.worldStep (maxTimeStepMs / 1000) 3 2] ∧
    (step env d s).1.world = env.worldStep s.world (maxTimeStepMs / 1000) 3 2 ∧
    maxTimeStepMs = 1 / 60 * 1000 ∧ maxTimeStepMs / 1000 = 1 / 60 := by
  refine ⟨?_, ?_, rfl, ?_⟩
  · rw [step_trace, min_eq_right h]
  · rw [step_world, min_eq_right h]
  · norm_num [maxTimeStepMs]

/-- C2: for every delta `d` with `d < maxTimeStepMs`, zero and negative ones
included, `step(d)` makes exactly one call `world.Step(d / 1000, 3, 2)`. -/
theorem step_passes_small_delta (env : Env W) (d : ℚ) (s : Scene W)
    (h : d < maxTimeStepMs) :
    (step env d s).2 = [Effect.worldStep (d / 1000) 3 2] ∧
    (step env d s).1.world = env.worldStep s.world (d / 1000) 3 2 := by
  refine ⟨?_, ?_⟩
  · rw [step_trace, min_eq_left h.le]
  · rw [step_world, min_eq_left h.le]

theorem step_clamps_witness :
    maxTimeStepMs ≤ 500 ∧
    ((step sampleEnv 500 sampleScene).2 = [Effect.worldStep (maxTimeStepMs / 1000) 3 2] ∧
     (step sampleEnv 500 sampleScene).1.world =
        sampleEnv.worldStep sampleScene.world (maxTimeStepMs / 1000) 3 2 ∧
     maxTimeStepMs = 1 / 60 * 1000 ∧ maxTimeStepMs / 1000 = 1 / 60) :=
  ⟨by norm_num [maxTimeStepMs], step_clamps sampleEnv 500 sampleScene (by norm_num [maxTimeStepMs])⟩

theorem step_passes_small_delta_witness :
    (10 : ℚ) < maxTimeStepMs ∧
    ((step sampleEnv 10 sampleScene).2 = [Effect.worldStep (10 / 1000) 3 2] ∧
     (step sampleEnv 10 sampleScene).1.world =
        sampleEnv.worldStep sampleScene.world (10 / 1000) 3 2) :=
  ⟨by norm_num [maxTimeStepMs], step_passes_small_delta sampleEnv 10 sampleScene (by norm_num [maxTimeStepMs])⟩

/-- C5: for every state, the effects of one call of `draw` are, in this order:
the clear; the ground's MVP matrix and colour uniforms and its 4-vertex
triangle-strip draw call; the box's MVP matrix and colour uniforms and its
4-vertex triangle-strip draw call; `world.DebugDraw()`.  The debug-draw pass is
the last effect and occurs exactly once. -/
theorem draw_effect_order (env : Env W) (s : Scene W) :
    (draw env s).2 =
      [ Effect.glClear GLenum.COLOR_BUFFER_BIT,
        Effect.glUniformMatrix4fv s.uMvpMatrixLocation false
          (mat4.mul s.projViewMatrix
            (mat4.scale (mat4.fromTranslation s.groundPosition) s.groundSize)),
        Effect.glUniform3fv s.uColorLocation s.groundColor,
        Effect.glDrawArrays GLenum.TRIANGLE_STRIP 0 4,
        Effect.glUniformMatrix4fv s.uMvpMatrixLocation false (draw env s).1.mvpMatrix,
        Effect.glUniform3fv s.uColorLocation s.boxColor,
        Effect.glDrawArrays GLenum.TRIANGLE_STRIP 0 4,
        Effect.worldDebugDraw ] ∧
    (draw env s).2.getLast? = some Effect.worldDebugDraw ∧
    (draw env s).2.count Effect.worldDebugDraw = 1 := by
  refine ⟨rfl, ?_, ?_⟩
  · rw [draw_trace]; rfl
  · rw [draw_trace]; simp [List.count_cons]

/-- C6: for every state, a second call of `draw` right after a first one (the
world, hence the box body's position and angle, unchanged in between) issues
the same effects with the same MVP matrices and colour values as the first;
and the effects of `draw` do not depend on what `modelMatrix`, `mvpMatrix` and
the x and y slots of `boxPosition` held before the call. -/
theorem draw_twice_same_uploads (env : Env W) (s : Scene W) :
    (draw env s).1.world = s.world ∧
    (draw env (draw env s).1).2 = (draw env s).2 ∧
    ∀ (modelMatrix mvpMatrix : Mat4) (x y : ℚ),
      (draw env { s with
          modelMatrix := modelMatrix
          mvpMatrix := mvpMatrix
          boxPosition := ⟨x, y, s.boxPosition.v2⟩ }).2 = (draw env s).2 := by
  refine ⟨rfl, ?_, ?_⟩
  · exact draw_trace_congr env _ _ (frozen_draw env s) rfl
  · intro modelMatrix mvpMatrix x y
    exact draw_trace_congr env _ _ rfl rfl

/-- C9: if `initWebGLContext` reports failure, or the promise of `initBox2D`
is not fulfilled with the engine loaded, then `init` makes no call besides
those two loaders: no world or body is created, no scene resource is set up,
nothing is logged, `world` stays unassigned and no animation callback is
registered, so that no `step` or `draw` is ever made. -/
theorem init_aborts_on_load_failure (env : Env W) (host : Host W)
    (h : host.initWebGLContext = false ∨ host.initBox2D ≠ Awaited.fulfilled true) :
    (init env host).scene = none ∧ (init env host).scheduled = none ∧
    ∀ e ∈ (init env host).trace,
      e = Effect.initWebGLContext "renderCanvas" ∨ e = Effect.initBox2D := by
  unfold init
  cases hc : host.initWebGLContext with
  | false => simp
  | true =>
    rcases h with h | h
    · rw [hc] at h; cases h
    · cases hb : host.initBox2D with
      | rejected => simp
      | pending => simp
      | fulfilled b =>
        cases b with
        | false => simp
        | true => exact absurd hb h

theorem init_aborts_on_load_failure_witness :
    ((⟨true, Awaited.rejected, Awaited.fulfilled (), 300, 300, (0, 0, 0), 0, 16⟩ :
        Host (ℚ × ℚ × ℚ)).initWebGLContext = false ∨
      (⟨true, Awaited.rejected, Awaited.fulfilled (), 300, 300, (0, 0, 0), 0, 16⟩ :
        Host (ℚ × ℚ × ℚ)).initBox2D ≠ Awaited.fulfilled true) ∧
    ((init sampleEnv
        ⟨true, Awaited.rejected, Awaited.fulfilled (), 300, 300, (0, 0, 0), 0, 16⟩).scene = none ∧
     (init sampleEnv
        ⟨true, Awaited.rejected, Awaited.fulfilled (), 300, 300, (0, 0, 0), 0, 16⟩).scheduled
        = none ∧
     ∀ e ∈ (init sampleEnv
        ⟨true, Awaited.rejected, Awaited.fulfilled (), 300, 300, (0, 0, 0), 0, 16⟩).trace,
      e = Effect.initWebGLContext "renderCanvas" ∨ e = Effect.initBox2D) :=
  ⟨Or.inr (by simp), init_aborts_on_load_failure sampleEnv _ (Or.inr (by simp))⟩

/-- C7: in any state reached from the initial one by calls of `step` and
`draw`, if the box body is at `(0, 0)` with angle `0` (and the host's sine and
cosine of `0` are `0` and `1`), then `draw` leaves `boxPosition` at pixel
position `(0, 0)` (slot 2 stays `0`), the translate-and-rotate part of the
box's model matrix is the identity, and the model matrix is the pure scale
matrix `scale(20, 20, 1)`. -/
theorem draw_box_at_origin (env : Env W) (ops : List Op) (w : W)
    (hpos : env.boxGetPosition (run env ops (Scene.initial w)).world = (0, 0))
    (hang : env.boxGetAngle (run env ops (Scene.initial w)).world = 0)
    (hsin : env.sin 0 = 0) (hcos : env.cos 0 = 1) :
    pixelsPerMeter = 30 ∧
    (draw env (run env ops (Scene.initial w))).1.boxPosition = ⟨0, 0, 0⟩ ∧
    mat4.rotateZ (mat4.fromTranslation (draw env (run env ops (Scene.initial w))).1.boxPosition)
      (env.sin 0) (env.cos 0) = mat4.identity ∧
    (draw env (run env ops (Scene.initial w))).1.modelMatrix =
      mat4.scale mat4.identity ⟨20, 20, 1⟩ ∧
    (draw env (run env ops (Scene.initial w))).1.modelMatrix.toMatrix = Spec.scale 20 20 1 := by
  have hf := frozen_run env ops (Scene.initial w)
  simp only [Scene.frozen, Prod.mk.injEq] at hf
  obtain ⟨-, -, -, -, hz, hsz, -, -, -⟩ := hf
  have hz0 : (run env ops (Scene.initial w)).boxPosition.v2 = 0 := by
    rw [hz]; rfl
  have hsz0 : (run env ops (Scene.initial w)).boxSize = ⟨20, 20, 1⟩ := by
    rw [hsz]; rfl
  have hbp : (draw env (run env ops (Scene.initial w))).1.boxPosition = ⟨0, 0, 0⟩ := by
    simp [draw, hpos, hz0]
  have hmm : (draw env (run env ops (Scene.initial w))).1.modelMatrix =
      mat4.scale mat4.identity ⟨20, 20, 1⟩ := by
    simp [draw, hpos, hang, hsin, hcos, hz0, hsz0, mat4.scale, mat4.rotateZ,
      mat4.fromTranslation, mat4.identity]
  refine ⟨rfl, hbp, ?_, hmm, ?_⟩
  · rw [hbp]
    simp [mat4.rotateZ, mat4.fromTranslation, mat4.identity, hsin, hcos]
  · rw [hmm]
    simp [Mat4.toMatrix, Spec.scale, mat4.scale, mat4.identity]

theorem draw_box_at_origin_witness :
    (sampleEnv.boxGetPosition (run sampleEnv [Op.draw] (Scene.initial (0, 0, 0))).world = (0, 0) ∧
     sampleEnv.boxGetAngle (run sampleEnv [Op.draw] (Scene.initial (0, 0, 0))).world = 0 ∧
     sampleEnv.sin 0 = 0 ∧ sampleEnv.cos 0 = 1) ∧
    (pixelsPerMeter = 30 ∧
     (draw sampleEnv (run sampleEnv [Op.draw] (Scene.initial (0, 0, 0)))).1.boxPosition
        = ⟨0, 0, 0⟩ ∧
     mat4.rotateZ (mat4.fromTranslation
        (draw sampleEnv (run sampleEnv [Op.draw] (Scene.initial (0, 0, 0)))).1.boxPosition)
        (sampleEnv.sin 0) (sampleEnv.cos 0) = mat4.identity ∧
     (draw sampleEnv (run sampleEnv [Op.draw] (Scene.initial (0, 0, 0)))).1.modelMatrix =
        mat4.scale mat4.identity ⟨20, 20, 1⟩ ∧
     (draw sampleEnv (run sampleEnv [Op.draw] (Scene.initial (0, 0, 0)))).1.modelMatrix.toMatrix
        = Spec.scale 20 20 1) :=
  ⟨⟨rfl, rfl, by simp [sampleEnv], by simp [sampleEnv]⟩,
   draw_box_at_origin sampleEnv [Op.draw] (0, 0, 0) rfl rfl
     (by simp [sampleEnv]) (by simp [sampleEnv])⟩

/-- C8 (with the debug drawer modelled from the specification): `step` changes
none of `projMatrix`, `viewMatrix`, `projViewMatrix`, and `draw` does not change
`projViewMatrix`, whatever the debug drawer does; with the debug drawer of the
specification, whose callbacks leave the matrices stored on it alone, `draw`
changes neither `projMatrix` nor `viewMatrix`, and in every state reached from
the initial one by a finite sequence of `step` and `draw` calls the three
matrices are those computed at module load. -/
theorem camera_never_mutated (env : Env W) :
    (∀ (d : ℚ) (s : Scene W),
      (step env d s).1.projMatrix = s.projMatrix ∧
      (step env d s).1.viewMatrix = s.viewMatrix ∧
      (step env d s).1.projViewMatrix = s.projViewMatrix) ∧
    (∀ s : Scene W, (draw env s).1.projViewMatrix = s.projViewMatrix) ∧
    (∀ (ops : List Op) (w : W),
      (run env ops (Scene.initial w)).projViewMatrix = projViewMatrix) ∧
    (∀ s : Scene W,
      (draw env.withDebugDrawer s).1.projMatrix = s.projMatrix ∧
      (draw env.withDebugDrawer s).1.viewMatrix = s.viewMatrix) ∧
    (∀ (ops : List Op) (w : W),
      (run env.withDebugDrawer ops (Scene.initial w)).projMatrix = projMatrix ∧
      (run env.withDebugDrawer ops (Scene.initial w)).viewMatrix = viewMatrix ∧
      (run env.withDebugDrawer ops (Scene.initial w)).projViewMatrix = projViewMatrix) ∧
    projMatrix = mat4.ortho 0 200 0 200 1 (-1) ∧
    viewMatrix = mat4.lookAt ⟨0, 0, 1⟩ ⟨0, 0, 0⟩ ⟨0, 1, 0⟩ ∧
    projViewMatrix = mat4.mulIEEE projMatrix viewMatrix := by
  have hdd : ∀ (w : W) (stored : Mat4 × Mat4),
      env.withDebugDrawer.debugDrawer w stored = stored := fun _ _ => rfl
  refine ⟨fun d s => ⟨rfl, rfl, rfl⟩, fun s => rfl, fun ops w => ?_, fun s => ⟨rfl, rfl⟩,
    fun ops w => ?_, rfl, rfl, rfl⟩
  · exact projViewMatrix_frozen env ops (Scene.initial w)
  · have h := camera_run env.withDebugDrawer hdd ops (Scene.initial w)
    simp only [Scene.camera, Prod.mk.injEq] at h
    exact h

/-- C10, as the claim states it, fails: the camera sends `(200, 200, 0, 1)` to a
point whose first coordinate is not `200/100 - 1 = 1`, and the point
`(200.000004, 0)` of the plane `z = 0` lies inside the clip volume although its
`x` exceeds `200`. -/
theorem camera_claim_fails :
    projViewMatrix.toMatrix.mulVec ![200, 200, 0, 1] ≠
      ![200 / 100 - 1, 200 / 100 - 1, -1, 1] ∧
    ¬ (Spec.inClipVolume (projViewMatrix.toMatrix.mulVec ![50000001 / 250000, 0, 0, 1]) ↔
        (0 ≤ (50000001 / 250000 : ℚ) ∧ (50000001 / 250000 : ℚ) ≤ 200) ∧
          (0 ≤ (0 : ℚ) ∧ (0 : ℚ) ≤ 200)) := by
  refine ⟨?_, ?_⟩
  · rw [projViewMatrix_mulVec]
    intro h
    have h0 := congrFun h 0
    simp only [Matrix.cons_val_zero] at h0
    norm_num at h0
  · intro h
    have hin : Spec.inClipVolume
        (projViewMatrix.toMatrix.mulVec ![50000001 / 250000, 0, 0, 1]) := by
      rw [projViewMatrix_mulVec]
      simp only [Spec.inClipVolume, Matrix.cons_val_zero, Matrix.cons_val_one,
        Matrix.head_cons, Matrix.cons_val_two, Matrix.tail_cons]
      norm_num
    have hx := (h.mp hin).1.2
    norm_num at hx

/-- C10 (amended): the camera computed at module load,
`ortho(0, 200, 0, 200, 1, -1) × lookAt((0,0,1), (0,0,0), (0,1,0))`, is stored
in a `Float32Array` and holds `f = 5368709/536870912`, the float32 nearest to
`1/100`, in slots 0 and 5; it sends every point `(x, y, 0, 1)` to
`(f x - 1, f y - 1, -1, 1)`; hence the image lies in `[-1, 1]³` exactly when
`0 ≤ x ≤ 2/f` and `0 ≤ y ≤ 2/f`, where `2/f = 1073741824/5368709` is slightly
above `200`. -/
theorem camera_maps_pixels_to_clip (x y : ℚ) :
    projViewMatrix =
      mat4.mulIEEE (mat4.ortho 0 200 0 200 1 (-1))
        (mat4.lookAt ⟨0, 0, 1⟩ ⟨0, 0, 0⟩ ⟨0, 1, 0⟩) ∧
    projViewMatrix.m0 = IEEE.float32 (1 / 100) ∧
    projViewMatrix.m5 = IEEE.float32 (1 / 100) ∧
    IEEE.float32 (1 / 100) = 5368709 / 536870912 ∧
    projViewMatrix.toMatrix.mulVec ![x, y, 0, 1] =
      ![5368709 / 536870912 * x - 1, 5368709 / 536870912 * y - 1, -1, 1] ∧
    (Spec.inClipVolume (projViewMatrix.toMatrix.mulVec ![x, y, 0, 1]) ↔
      (0 ≤ x ∧ x ≤ 1073741824 / 5368709) ∧ (0 ≤ y ∧ y ≤ 1073741824 / 5368709)) ∧
    (200 : ℚ) < 1073741824 / 5368709 := by
  have hf := float32_hundredth
  refine ⟨rfl, ?_, ?_, hf, projViewMatrix_mulVec x y, ?_, by norm_num⟩
  · rw [hf, projViewMatrix_eq]
  · rw [hf, projViewMatrix_eq]
  · rw [projViewMatrix_mulVec]
    simp only [Spec.inClipVolume, Matrix.cons_val_zero, Matrix.cons_val_one, Matrix.head_cons,
      Matrix.cons_val_two, Matrix.tail_cons]
    constructor
    · rintro ⟨⟨h1, h2⟩, ⟨h3, h4⟩, -⟩
      refine ⟨⟨?_, ?_⟩, ⟨?_, ?_⟩⟩
      · linarith
      · rw [le_div_iff₀ (by norm_num)]; linarith
      · linarith
      · rw [le_div_iff₀ (by norm_num)]; linarith
    · rintro ⟨⟨h1, h2⟩, ⟨h3, h4⟩⟩
      rw [le_div_iff₀ (by norm_num)] at h2 h4
      refine ⟨⟨?_, ?_⟩, ⟨?_, ?_⟩, ⟨?_, ?_⟩⟩ <;> linarith

/-- C3: for every sequence of clock readings `t 0` (taken just before the loop
starts), `t 1`, ..., `t n` (one at the start of each frame), the host runs
`n` frames, and frame `i + 1` consists of registering the next callback with
the reading `t (i + 1)` bound as its previous time, then the call
`world.Step(min(t (i+1) - t i, maxTimeStepMs) / 1000, 3, 2)`, then the effects
of `draw` on the world so stepped, and nothing else; that call is the only
`world.Step` of the frame, and the frame holds exactly one clear and exactly
one debug-draw pass, that is, one draw pass. -/
theorem animationLoop_frames (env : Env W) (t : ℕ → ℚ) (n : ℕ) (s : Scene W) :
    (runFrames env (t 0) (Spec.readings t n) s).2.length = n ∧
    ∀ i, i < n →
      ∃ frame : List Effect,
        (runFrames env (t 0) (Spec.readings t n) s).2[i]? = some frame ∧
        frame =
          Effect.requestAnimationFrame (t (i + 1)) ::
            Effect.worldStep (min (t (i + 1) - t i) maxTimeStepMs / 1000) 3 2 ::
              (draw env { s with world := Spec.worldAfter env t s.world (i + 1) }).2 ∧
        frame.filter Effect.isWorldStep =
          [Effect.worldStep (min (t (i + 1) - t i) maxTimeStepMs / 1000) 3 2] ∧
        frame.count (Effect.glClear GLenum.COLOR_BUFFER_BIT) = 1 ∧
        frame.count Effect.worldDebugDraw = 1 := by
  refine ⟨?_, fun i h => ⟨_, runFrames_frame env n t s i h, rfl, ?_, ?_, ?_⟩⟩
  · rw [runFrames_length]
    simp [Spec.readings]
  · rw [draw_trace]
    simp [List.filter, Effect.isWorldStep]
  · rw [draw_trace]
    simp [List.count_cons]
  · rw [draw_trace]
    simp [List.count_cons]

theorem animationLoop_frames_witness :
    1 < 2 ∧
    ∃ frame : List Effect,
      (runFrames sampleEnv (sampleClock 0) (Spec.readings sampleClock 2) sampleScene).2[1]? =
        some frame ∧
      frame =
        Effect.requestAnimationFrame (sampleClock (1 + 1)) ::
          Effect.worldStep (min (sampleClock (1 + 1) - sampleClock 1) maxTimeStepMs / 1000) 3 2 ::
            (draw sampleEnv
              { sampleScene with
                world := Spec.worldAfter sampleEnv sampleClock sampleScene.world (1 + 1) }).2 ∧
      frame.filter Effect.isWorldStep =
        [Effect.worldStep (min (sampleClock (1 + 1) - sampleClock 1) maxTimeStepMs / 1000) 3 2] ∧
      frame.count (Effect.glClear GLenum.COLOR_BUFFER_BIT) = 1 ∧
      frame.count Effect.worldDebugDraw = 1 :=
  ⟨by decide, (animationLoop_frames sampleEnv sampleClock 2 sampleScene).2 1 (by decide)⟩

/-- C4: in every draw pass (the state being any one reached from the initial
state by calls of `step` and `draw`), the matrices uploaded to `uMvpMatrix` are,
in order, `projViewMatrix × (T × R × S)` for the ground, with
`T = translate(100, 15, 0)`, `R` the identity and `S = scale(190, 19, 1)`, and
`projViewMatrix × (T × R × S)` for the box, with
`T = translate(px * 30, py * 30, 0)`, `R = rotateZ(a)` and `S = scale(20, 20, 1)`,
where `(px, py)` and `a` are the box body's position and angle. -/
theorem draw_mvp_composition (env : Env W) (ops : List Op) (w : W) :
    (mvpUploads ⟨"uMvpMatrix"⟩ (draw env (run env ops (Scene.initial w))).2).map Mat4.toMatrix =
      [ projViewMatrix.toMatrix * (Spec.translate 100 15 0 * 1 * Spec.scale 190 19 1),
        projViewMatrix.toMatrix *
          (Spec.translate
              ((env.boxGetPosition (run env ops (Scene.initial w)).world).1 * 30)
              ((env.boxGetPosition (run env ops (Scene.initial w)).world).2 * 30) 0 *
            Spec.rotateZ env (env.boxGetAngle (run env ops (Scene.initial w)).world) *
            Spec.scale 20 20 1) ] := by
  have hf := frozen_run env ops (Scene.initial w)
  simp only [Scene.frozen, Prod.mk.injEq] at hf
  obtain ⟨-, hgp, hgs, -, hz, hbs, -, hloc, hpv⟩ := hf
  rw [draw_trace, hgp, hgs, hz, hbs, hloc, hpv]
  simp only [mvpUploads, Scene.initial, if_true, List.map_cons, List.map_nil, toMatrix_mul,
    toMatrix_scale, toMatrix_rotateZ, toMatrix_fromTranslation, mul_one]
  rfl

end DebugDrawerDemo
